import Mathlib

/-!
Verification of the memory-debugging instrumentation layer in
src/memory_debug.hpp (namespace mem): the Trace value, the reference-counted
Trunk wrapper with its Iter cursor, and the Allocator registry.

Modelling conventions.  Machine size_t arithmetic is Nat with an explicit
modulus of 2 to the 64.  A Trunk<T> object consists of per-object fields
(_allocated, _freed, _single, _size, the embedded Iter member) plus pointers
to heap state shared between aliased objects (*_deleted, *_refcount and the
T[] buffer); the shared part is a Cells record and the per-object part a
TrunkObj record that names its cell group by index.  A store (Mem) holds all
cell groups and all Trunk objects.  PTR(T) in the source is mem::Trunk<T>&,
so a user handle is a reference to a Trunk object, modelled as the index of
the referenced object.  Every operation that can print a diagnostic and call
exit returns a result that carries the printed lines and, when the process
terminates, the exit code and the state at exit.
-/

/-- Width of size_t arithmetic in the source: 2 to the 64. -/
def W64 : Nat := 18446744073709551616

/-- size_t increment with wrap-around. -/
def incWrap (n : Nat) : Nat := (n + 1) % W64

/-- size_t decrement with wrap-around. -/
def decWrap (n : Nat) : Nat := (n + W64 - 1) % W64

/-- size_t value of a signed integer expression, modelling the conversion
performed by mixed size_t and int arithmetic in the source. -/
def wrapI (z : Int) : Nat := (z.emod (W64 : Int)).toNat

/-- mem::Trace (src 32-50): an immutable (file, line) call-site tag. -/
structure Trace where
  file : String
  line : Int
deriving DecidableEq

/-- Trace::to_s (src 47-49). -/
def Trace.to_s (t : Trace) : String := t.file ++ ":" ++ toString t.line

/-- Heap cells shared by every Trunk object aliasing one logical allocation:
the T[] buffer (new T[count] at construction, delete [] _data on release),
*_deleted and *_refcount.  The field releases is ghost instrumentation that
counts how many times delete [] has been executed on this buffer; the source
keeps no such count, it is recorded here only to state the
exactly-once-release property. -/
structure Cells where
  deleted : Bool
  refcount : Nat
  buf : List Int
  releases : Nat
deriving DecidableEq

/-- Per-object fields of one mem::Trunk<T> object (src 60-278): _allocated,
_freed, _single, _size, and the embedded Iter member _iter (its _trunk
pointer as an object index, its _idx as a size_t).  cells names the heap cell
group (_data, _deleted, _refcount) the object points at. -/
structure TrunkObj where
  allocated : Trace
  freed : Trace
  single : Bool
  size : Nat
  iterTrunk : Nat
  iterIdx : Nat
  cells : Nat
deriving DecidableEq

/-- Trunk<T>::Iter (src 63-114): a (Trunk*, size_t) pair; the Trunk* is
modelled as an object index. -/
structure Iter where
  trunk : Nat
  idx : Nat
deriving DecidableEq

/-- The store: every heap cell group and every Trunk object ever created,
indexed by position. -/
structure Mem where
  cellsArr : List Cells
  objs : List TrunkObj
deriving DecidableEq

/-- A user handle: PTR(T) is mem::Trunk<T>&, a reference to a Trunk object,
modelled as the index of the referenced object. -/
structure Handle where
  obj : Nat
deriving DecidableEq

/-- Diagnostic printed by Trunk::validate (src 261-265). -/
def msgOOB (idx size : Nat) (allocated : Trace) : String :=
  "Index out of boundary!\n-> Index: " ++ toString idx ++ ", size: " ++ toString size ++
  ".\n-> Allocated here: (" ++ allocated.to_s ++ ")."

/-- Diagnostic printed by Trunk::check_access_after_freed (src 273-274). -/
def msgUAF (freed : Trace) : String :=
  "Access after freed!\n-> 1st free: (" ++ freed.to_s ++ ")."

/-- Diagnostic printed by Trunk::give_up_ref (src 245-248). -/
def msgLeak (allocated : Trace) : String :=
  "Memory leak detected!\n-> Allocated here: (" ++ allocated.to_s ++ ")."

/-- Diagnostic printed by Trunk::free on a double free (src 171-174). -/
def msgDouble (freed trace : Trace) : String :=
  "Double free detected!\n-> 1st free: (" ++ freed.to_s ++ ").\n-> 2nd free: (" ++
  trace.to_s ++ ")."

/-- Diagnostic printed by Trunk::free when a single allocation is freed with
the array form (src 156-160). -/
def msgMismatchSA (allocated trace : Trace) : String :=
  "Allocated as NEW but freed as DELETE_ARRAY!\n-> Allocated here: (" ++ allocated.to_s ++
  ").\n-> Freed here: (" ++ trace.to_s ++ ")."

/-- Diagnostic printed by Trunk::free when an array allocation is freed with
the single form (src 163-167). -/
def msgMismatchAS (allocated trace : Trace) : String :=
  "Allocated as NEW_ARRAY but freed as DELETE!\n-> Allocated here: (" ++ allocated.to_s ++
  ").\n-> Freed here: (" ++ trace.to_s ++ ")."

/-- Outcome of one Trunk operation on one object and its cells: either the
operation returns (value, object afterwards, cells afterwards, lines
printed), or the process terminates via exit (code, state at exit, lines
printed). -/
inductive Res (α : Type) where
  | ok : α → TrunkObj → Cells → List String → Res α
  | exited : Nat → TrunkObj → Cells → List String → Res α
deriving DecidableEq

/-- Trunk::cleanup_and_exit (src 253-257): delete [] _data; *_deleted = true;
exit(no).  out holds the diagnostic the caller printed just before. -/
def Trunk.cleanup_and_exit {α : Type} (o : TrunkObj) (c : Cells) (no : Nat)
    (out : List String) : Res α :=
  .exited no o { c with deleted := true, releases := c.releases + 1 } out

/-- Trunk::check_access_after_freed (src 271-277). -/
def Trunk.check_access_after_freed (o : TrunkObj) (c : Cells) : Res Unit :=
  if c.deleted then .exited 14 o c [msgUAF o.freed] else .ok () o c []

/-- Trunk::validate (src 259-269): the bounds test runs first (printing the
out-of-bounds diagnostic and calling cleanup_and_exit(13) on failure), the
liveness test second. -/
def Trunk.validate (o : TrunkObj) (c : Cells) (idx : Nat) : Res Unit :=
  if idx ≥ o.size then Trunk.cleanup_and_exit o c 13 [msgOOB idx o.size o.allocated]
  else Trunk.check_access_after_freed o c

/-- Read through Trunk::operator[] (src 186-189): validate(idx), then
_data[idx]. -/
def Trunk.getElem (o : TrunkObj) (c : Cells) (idx : Nat) : Res Int :=
  match Trunk.validate o c idx with
  | .ok _ o' c' out => .ok (c'.buf.getD idx 0) o' c' out
  | .exited n o' c' out => .exited n o' c' out

/-- Write through Trunk::operator[] (src 191-194): validate(idx), then
assignment to _data[idx]. -/
def Trunk.setElem (o : TrunkObj) (c : Cells) (idx : Nat) (v : Int) : Res Unit :=
  match Trunk.validate o c idx with
  | .ok _ o' c' out => .ok () o' { c' with buf := c'.buf.set idx v } out
  | .exited n o' c' out => .exited n o' c' out

/-- Trunk::free (src 154-180): the two kind-mismatch tests run first and end
in cleanup_and_exit, then the double-free test which ends in a bare exit(12),
then the release. -/
def Trunk.free (o : TrunkObj) (c : Cells) (trace : Trace) (single : Bool) : Res Unit :=
  if o.single && !single then
    Trunk.cleanup_and_exit o c 21 [msgMismatchSA o.allocated trace]
  else if !o.single && single then
    Trunk.cleanup_and_exit o c 22 [msgMismatchAS o.allocated trace]
  else if c.deleted then
    .exited 12 o c [msgDouble o.freed trace]
  else
    .ok () { o with freed := trace }
      { c with deleted := true, releases := c.releases + 1 } []

/-- Trunk::give_up_ref (src 243-251): the side effect of --*_refcount happens
whether or not the leak diagnostic fires. -/
def Trunk.give_up_ref (o : TrunkObj) (c : Cells) : Res Unit :=
  if decWrap c.refcount = 0 ∧ c.deleted = false then
    Trunk.cleanup_and_exit o { c with refcount := decWrap c.refcount } 11
      [msgLeak o.allocated]
  else
    .ok () o { c with refcount := decWrap c.refcount } []

/-- Trunk::Trunk (src 116-131), the only constructor the source declares:
fresh buffer of count default-initialized elements, refcount 1, deleted
false, zero freed trace, cursor Iter(this, 0).  none models a failure of the
asserts (single requires count == 1, otherwise count >= 1).  The index fields
are 0, matching an object that stands alone at position 0. -/
def Trunk.mkNew (allocated : Trace) (count : Nat) (single : Bool) :
    Option (TrunkObj × Cells) :=
  if single && count != 1 then none
  else if !single && count < 1 then none
  else some
    ({ allocated, freed := { file := "", line := 0 }, single, size := count,
       iterTrunk := 0, iterIdx := 0, cells := 0 },
     { deleted := false, refcount := 1, buf := List.replicate count 0, releases := 0 })

/-- Iter::operator++() (src 69-73): saves a copy, increments _idx, returns
the saved copy.  The result is (returned iterator, iterator afterwards). -/
def Iter.preInc (it : Iter) : Iter × Iter :=
  (it, { it with idx := incWrap it.idx })

/-- Iter::operator++(int) (src 75-78): increments _idx, returns *this. -/
def Iter.postInc (it : Iter) : Iter × Iter :=
  ({ it with idx := incWrap it.idx }, { it with idx := incWrap it.idx })

/-- Iter::operator--() (src 80-84): saves a copy, decrements _idx, returns
the saved copy. -/
def Iter.preDec (it : Iter) : Iter × Iter :=
  (it, { it with idx := decWrap it.idx })

/-- Iter::operator--(int) (src 86-89): decrements _idx, returns *this. -/
def Iter.postDec (it : Iter) : Iter × Iter :=
  ({ it with idx := decWrap it.idx }, { it with idx := decWrap it.idx })

/-- Iter::operator+(int) (src 91-93): Iter(_trunk, _idx + offset); no check,
no print, no state change. -/
def Iter.add (it : Iter) (offset : Int) : Iter :=
  { it with idx := wrapI ((it.idx : Int) + offset) }

/-- Iter::operator-(int) (src 95-97). -/
def Iter.sub (it : Iter) (offset : Int) : Iter :=
  { it with idx := wrapI ((it.idx : Int) - offset) }

/-- The _iter member of a Trunk object, as an Iter value.  Iter::operator*
(src 66-67) is deliberately not modelled: it returns _trunk[_idx] where
_trunk has type Trunk*, a built-in pointer subscript yielding a Trunk lvalue,
which is ill-formed to return as T&, so the member cannot be instantiated and
an Iter cannot actually be dereferenced. -/
def TrunkObj.iter (o : TrunkObj) : Iter := { trunk := o.iterTrunk, idx := o.iterIdx }

/-- Store an Iter value back into the _iter member. -/
def TrunkObj.withIter (o : TrunkObj) (it : Iter) : TrunkObj :=
  { o with iterTrunk := it.trunk, iterIdx := it.idx }

/-- Trunk::operator++() (src 206-208): return _iter++; the form named for
pre-increment forwards to Iter's postfix form. -/
def TrunkObj.preInc (o : TrunkObj) : Iter × TrunkObj :=
  ((o.iter.postInc).1, o.withIter (o.iter.postInc).2)

/-- Trunk::operator++(int) (src 210-212): return ++_iter; the form named for
post-increment forwards to Iter's prefix form. -/
def TrunkObj.postInc (o : TrunkObj) : Iter × TrunkObj :=
  ((o.iter.preInc).1, o.withIter (o.iter.preInc).2)

/-- Trunk::operator--() (src 214-216): return _iter--. -/
def TrunkObj.preDec (o : TrunkObj) : Iter × TrunkObj :=
  ((o.iter.postDec).1, o.withIter (o.iter.postDec).2)

/-- Trunk::operator--(int) (src 218-220): return --_iter. -/
def TrunkObj.postDec (o : TrunkObj) : Iter × TrunkObj :=
  ((o.iter.preDec).1, o.withIter (o.iter.preDec).2)

/-- Trunk::operator+(int) (src 222-224): return _iter + offset; builds a new
iterator, the stored cursor does not move, nothing is checked or printed. -/
def TrunkObj.add (o : TrunkObj) (offset : Int) : Iter := o.iter.add offset

/-- Trunk::operator-(int) (src 226-228). -/
def TrunkObj.sub (o : TrunkObj) (offset : Int) : Iter := o.iter.sub offset

/-- Replace object i and cell group ci in the store. -/
def Mem.update (m : Mem) (i : Nat) (o : TrunkObj) (ci : Nat) (c : Cells) : Mem :=
  { cellsArr := m.cellsArr.set ci c, objs := m.objs.set i o }

/-- Allocator::alloc (src 288-298): new Trunk<T>(Trace(file, line), count,
single), appended to the pool; the new object's _iter points at the object
itself and its heap cells are fresh. -/
def Allocator.alloc (m : Mem) (file : String) (line : Int) (count : Nat)
    (single : Bool) : Option Mem :=
  match Trunk.mkNew { file := file, line := line } count single with
  | none => none
  | some (o, c) => some
      { cellsArr := m.cellsArr ++ [c],
        objs := m.objs ++ [{ o with iterTrunk := m.objs.length, cells := m.cellsArr.length }] }

/-- The cursor observed through a handle: the referenced object's _iter._idx. -/
def cursorVia (m : Mem) (h : Handle) : Option Nat :=
  (m.objs.get? h.obj).map TrunkObj.iterIdx

/-- Advance the cursor through a handle: Trunk::operator++() applied to the
referenced object. -/
def advanceVia (m : Mem) (h : Handle) : Mem :=
  match m.objs.get? h.obj with
  | some o => { m with objs := m.objs.set h.obj (TrunkObj.preInc o).2 }
  | none => m

/-- Retreat the cursor through a handle: Trunk::operator--() applied to the
referenced object. -/
def retreatVia (m : Mem) (h : Handle) : Mem :=
  match m.objs.get? h.obj with
  | some o => { m with objs := m.objs.set h.obj (TrunkObj.preDec o).2 }
  | none => m

/-- Outcome of a store-level operation. -/
inductive SRes where
  | ok : Mem → List String → SRes
  | exited : Nat → Mem → List String → SRes
deriving DecidableEq

/-- Trunk::free called through a handle. -/
def freeVia (m : Mem) (h : Handle) (trace : Trace) (single : Bool) : Option SRes :=
  match m.objs.get? h.obj with
  | none => none
  | some o =>
    match m.cellsArr.get? o.cells with
    | none => none
    | some c =>
      match Trunk.free o c trace single with
      | .ok _ o' c' out => some (.ok (m.update h.obj o' o.cells c') out)
      | .exited n o' c' out => some (.exited n (m.update h.obj o' o.cells c') out)

/-- Trunk::operator= (src 133-148) with lhs object i and rhs object j: the
guard this == &that is object identity; otherwise give_up_ref on the lhs,
adoption of every rhs field with _iter = Iter(this, that._iter._idx), then
++*_refcount on the adopted cells. -/
def assignObjs (m : Mem) (i j : Nat) : Option SRes :=
  if i = j then some (.ok m []) else
  match m.objs.get? i, m.objs.get? j with
  | some oi, some oj =>
    (match m.cellsArr.get? oi.cells with
     | none => none
     | some ci =>
       match Trunk.give_up_ref oi ci with
       | .exited n o' c' out => some (.exited n (m.update i o' oi.cells c') out)
       | .ok _ _ c' _ =>
         let m2 : Mem :=
           { cellsArr := m.cellsArr.set oi.cells c',
             objs := m.objs.set i
               { allocated := oj.allocated, freed := oj.freed, single := oj.single,
                 size := oj.size, iterTrunk := i, iterIdx := oj.iterIdx,
                 cells := oj.cells } }
         match m2.cellsArr.get? oj.cells with
         | none => none
         | some cj =>
           some (.ok { m2 with
             cellsArr := m2.cellsArr.set oj.cells { cj with refcount := incWrap cj.refcount } } []))
  | _, _ => none

/-- Assignment through handles: h1 = h2 assigns between the referenced
objects. -/
def assignVia (m : Mem) (h1 h2 : Handle) : Option SRes := assignObjs m h1.obj h2.obj

/-- Copy construction of a Trunk from object j.  The source declares no copy
constructor (src 116-131 declare only the (Trace, count, single)
constructor, and a user-declared destructor and copy assignment exist), so
the language supplies the memberwise copy: every per-object field including
the cell pointers and the Iter member is copied verbatim and *_refcount is
not touched.  The copy joins the store as a new object. -/
def copyCtor (m : Mem) (j : Nat) : Mem :=
  match m.objs.get? j with
  | some oj => { m with objs := m.objs ++ [oj] }
  | none => m

/-! Concrete states.  The alias scenario: a single allocation A at f:1, an
array allocation B of four elements at f:2, an explicit matching free of A at
f:3, then the assignment A = B, after which objects 0 and 1 both point at the
heap cells of the allocation made at f:2 (its refcount counts both). -/

/-- Handle referencing object 0. -/
def aliasHA : Handle := { obj := 0 }

/-- Handle referencing object 1. -/
def aliasHB : Handle := { obj := 1 }

/-- Store after the allocation at f:1. -/
def aliasM1 : Mem :=
  { cellsArr := [{ deleted := false, refcount := 1, buf := [0], releases := 0 }],
    objs := [{ allocated := { file := "f", line := 1 }, freed := { file := "", line := 0 },
               single := true, size := 1, iterTrunk := 0, iterIdx := 0, cells := 0 }] }

/-- Store after the allocation at f:2. -/
def aliasM2 : Mem :=
  { cellsArr := [{ deleted := false, refcount := 1, buf := [0], releases := 0 },
                 { deleted := false, refcount := 1, buf := [0, 0, 0, 0], releases := 0 }],
    objs := [{ allocated := { file := "f", line := 1 }, freed := { file := "", line := 0 },
               single := true, size := 1, iterTrunk := 0, iterIdx := 0, cells := 0 },
             { allocated := { file := "f", line := 2 }, freed := { file := "", line := 0 },
               single := false, size := 4, iterTrunk := 1, iterIdx := 0, cells := 1 }] }

/-- Store after the matching free of object 0 at f:3. -/
def aliasM3 : Mem :=
  { cellsArr := [{ deleted := true, refcount := 1, buf := [0], releases := 1 },
                 { deleted := false, refcount := 1, buf := [0, 0, 0, 0], releases := 0 }],
    objs := [{ allocated := { file := "f", line := 1 }, freed := { file := "f", line := 3 },
               single := true, size := 1, iterTrunk := 0, iterIdx := 0, cells := 0 },
             { allocated := { file := "f", line := 2 }, freed := { file := "", line := 0 },
               single := false, size := 4, iterTrunk := 1, iterIdx := 0, cells := 1 }] }

/-- Store after the assignment of object 1 to object 0: both objects now
point at cell group 1, whose refcount is 2. -/
def aliasM4 : Mem :=
  { cellsArr := [{ deleted := true, refcount := 0, buf := [0], releases := 1 },
                 { deleted := false, refcount := 2, buf := [0, 0, 0, 0], releases := 0 }],
    objs := [{ allocated := { file := "f", line := 2 }, freed := { file := "", line := 0 },
               single := false, size := 4, iterTrunk := 0, iterIdx := 0, cells := 1 },
             { allocated := { file := "f", line := 2 }, freed := { file := "", line := 0 },
               single := false, size := 4, iterTrunk := 1, iterIdx := 0, cells := 1 }] }

/-- Store after advancing the cursor through the handle of object 0. -/
def aliasM5 : Mem :=
  { cellsArr := [{ deleted := true, refcount := 0, buf := [0], releases := 1 },
                 { deleted := false, refcount := 2, buf := [0, 0, 0, 0], releases := 0 }],
    objs := [{ allocated := { file := "f", line := 2 }, freed := { file := "", line := 0 },
               single := false, size := 4, iterTrunk := 0, iterIdx := 1, cells := 1 },
             { allocated := { file := "f", line := 2 }, freed := { file := "", line := 0 },
               single := false, size := 4, iterTrunk := 1, iterIdx := 0, cells := 1 }] }

/-- Fresh array allocation of four elements at f:1 (object part). -/
def c1oA : TrunkObj :=
  { allocated := { file := "f", line := 1 }, freed := { file := "", line := 0 },
    single := false, size := 4, iterTrunk := 0, iterIdx := 0, cells := 0 }

/-- Fresh array allocation of four elements at f:1 (cells part). -/
def c1cA : Cells := { deleted := false, refcount := 1, buf := [0, 0, 0, 0], releases := 0 }

/-- The object of c1oA after the matching free at f:2. -/
def c1oB : TrunkObj := { c1oA with freed := { file := "f", line := 2 } }

/-- The cells of c1cA after the matching free at f:2. -/
def c1cB : Cells := { deleted := true, refcount := 1, buf := [0, 0, 0, 0], releases := 1 }

/-- Fresh single allocation at f:1 (object part). -/
def c2o0 : TrunkObj :=
  { allocated := { file := "f", line := 1 }, freed := { file := "", line := 0 },
    single := true, size := 1, iterTrunk := 0, iterIdx := 0, cells := 0 }

/-- Fresh single allocation at f:1 (cells part). -/
def c2c0 : Cells := { deleted := false, refcount := 1, buf := [0], releases := 0 }

/-- The object of c2o0 after the matching free at f:2. -/
def c2o1 : TrunkObj := { c2o0 with freed := { file := "f", line := 2 } }

/-- The cells of c2c0 after the matching free at f:2: released once. -/
def c2c1 : Cells := { deleted := true, refcount := 1, buf := [0], releases := 1 }

/-- Store holding one single allocation at f:1. -/
def c5m1 : Mem :=
  { cellsArr := [{ deleted := false, refcount := 1, buf := [0], releases := 0 }],
    objs := [{ allocated := { file := "f", line := 1 }, freed := { file := "", line := 0 },
               single := true, size := 1, iterTrunk := 0, iterIdx := 0, cells := 0 }] }

/-- The single object of c5m1. -/
def c5obj : TrunkObj :=
  { allocated := { file := "f", line := 1 }, freed := { file := "", line := 0 },
    single := true, size := 1, iterTrunk := 0, iterIdx := 0, cells := 0 }

/-- A live object whose give_up_ref drops the refcount from 1 to 0. -/
def c7oLive : TrunkObj :=
  { allocated := { file := "g", line := 7 }, freed := { file := "", line := 0 },
    single := false, size := 2, iterTrunk := 0, iterIdx := 0, cells := 0 }

/-- Cells of c7oLive: refcount 1, not deleted. -/
def c7cLive : Cells := { deleted := false, refcount := 1, buf := [0, 0], releases := 0 }

/-- An already-freed object. -/
def c7oFreed : TrunkObj :=
  { allocated := { file := "g", line := 8 }, freed := { file := "g", line := 9 },
    single := false, size := 2, iterTrunk := 0, iterIdx := 0, cells := 0 }

/-- Cells of c7oFreed: deleted, three handles left. -/
def c7cFreed : Cells := { deleted := true, refcount := 3, buf := [0, 0], releases := 1 }

/-- A handle object with cursor 0, used to evaluate the increment operators. -/
def c9o : TrunkObj :=
  { allocated := { file := "f", line := 1 }, freed := { file := "", line := 0 },
    single := false, size := 4, iterTrunk := 0, iterIdx := 0, cells := 0 }

/-- A fresh array allocation of four elements with cursor 0, used to evaluate
the offset operator. -/
def c10h : TrunkObj :=
  { allocated := { file := "f", line := 1 }, freed := { file := "", line := 0 },
    single := false, size := 4, iterTrunk := 0, iterIdx := 0, cells := 0 }

/-- A store with one object, used to witness cursor sharing. -/
def c3wm : Mem :=
  { cellsArr := [{ deleted := false, refcount := 1, buf := [0, 0, 0], releases := 0 }],
    objs := [{ allocated := { file := "w", line := 1 }, freed := { file := "", line := 0 },
               single := false, size := 3, iterTrunk := 0, iterIdx := 0, cells := 0 }] }

theorem list_get?_set_self {α : Type} (a : α) :
    ∀ (l : List α) (i : Nat) (b : α), l.get? i = some b → (l.set i a).get? i = some a := by
  intro l
  induction l with
  | nil => intro i b h; cases i <;> simp [List.get?] at h
  | cons x xs ih =>
    intro i b h
    cases i with
    | zero => simp [List.set]
    | succ n => simpa [List.set] using ih n b h

theorem list_get?_concat {α : Type} (l : List α) (a : α) :
    (l ++ [a]).get? l.length = some a := by
  induction l with
  | nil => rfl
  | cons x xs ih => simpa using ih

theorem incWrap_ne (n : Nat) : incWrap n ≠ n := by
  unfold incWrap W64; omega

theorem decWrap_ne (n : Nat) : decWrap n ≠ n := by
  unfold decWrap W64; omega

/-- C1 counterexample: the claim says element access checks liveness first,
so that a deleted allocation always yields the use-after-free diagnostic and
exit code 14.  On a freed array of four elements, accessing index 4 instead
takes the bounds branch: out-of-bounds diagnostic and exit code 13, with a
second release of the buffer. -/
theorem c1_liveness_first_counterexample :
    Trunk.mkNew { file := "f", line := 1 } 4 false = some (c1oA, c1cA) ∧
    Trunk.free c1oA c1cA { file := "f", line := 2 } false = Res.ok () c1oB c1cB [] ∧
    c1cB.deleted = true ∧
    Trunk.getElem c1oB c1cB 4 =
      Res.exited 13 c1oB { c1cB with deleted := true, releases := 2 }
        [msgOOB 4 4 { file := "f", line := 1 }] ∧
    Trunk.getElem c1oB c1cB 4 ≠ Res.exited 14 c1oB c1cB [msgUAF c1oB.freed] := by
  refine ⟨rfl, rfl, rfl, rfl, by decide⟩

/-- C1 (amended): element access get(i)/set(i, v) checks bounds first: if
i >= count it emits the out-of-bounds diagnostic naming i, count and
allocated_at, releases the buffer, marks the allocation deleted and
terminates with exit code 13, whether or not the allocation is already
deleted; only otherwise, if the allocation is deleted, does it emit the
use-after-free diagnostic with freed_at and terminate with exit code 14;
otherwise it returns/mutates buffer[i]. -/
theorem c1_access_checks_bounds_before_liveness (o : TrunkObj) (c : Cells)
    (idx : Nat) (v : Int) :
    (o.size ≤ idx →
      Trunk.getElem o c idx =
        Res.exited 13 o { c with deleted := true, releases := c.releases + 1 }
          [msgOOB idx o.size o.allocated] ∧
      Trunk.setElem o c idx v =
        Res.exited 13 o { c with deleted := true, releases := c.releases + 1 }
          [msgOOB idx o.size o.allocated]) ∧
    (idx < o.size → c.deleted = true →
      Trunk.getElem o c idx = Res.exited 14 o c [msgUAF o.freed] ∧
      Trunk.setElem o c idx v = Res.exited 14 o c [msgUAF o.freed]) ∧
    (idx < o.size → c.deleted = false →
      Trunk.getElem o c idx = Res.ok (c.buf.getD idx 0) o c [] ∧
      Trunk.setElem o c idx v = Res.ok () o { c with buf := c.buf.set idx v } []) := by
  refine ⟨fun h => ?_, fun h1 h2 => ?_, fun h1 h2 => ?_⟩ <;>
    simp [Trunk.getElem, Trunk.setElem, Trunk.validate, Trunk.check_access_after_freed,
      Trunk.cleanup_and_exit, *, Nat.not_le_of_lt]

/-- C1 witness: the amended theorem applied to a live array of four zeros at
index 2 and to the same array at index 9. -/
theorem c1_access_checks_bounds_before_liveness_witness :
    (Trunk.getElem c1oA c1cA 2 = Res.ok 0 c1oA c1cA [] ∧
     Trunk.setElem c1oA c1cA 2 5 =
       Res.ok () c1oA { c1cA with buf := c1cA.buf.set 2 5 } []) ∧
    (Trunk.getElem c1oA c1cA 9 =
       Res.exited 13 c1oA { c1cA with deleted := true, releases := c1cA.releases + 1 }
         [msgOOB 9 c1oA.size c1oA.allocated] ∧
     Trunk.setElem c1oA c1cA 9 5 =
       Res.exited 13 c1oA { c1cA with deleted := true, releases := c1cA.releases + 1 }
         [msgOOB 9 c1oA.size c1oA.allocated]) :=
  ⟨(c1_access_checks_bounds_before_liveness c1oA c1cA 2 5).2.2 (by decide) rfl,
   (c1_access_checks_bounds_before_liveness c1oA c1cA 9 5).1 (by decide)⟩

/-- C2: evaluation of the failing input.  A single allocation freed once with
the matching kind releases the buffer (releases = 1); a second free with the
mismatched array kind reaches the kind-mismatch test before the double-free
test and runs cleanup_and_exit(21), which executes delete [] on the
already-released buffer a second time (releases = 2), contradicting the
exactly-once-release invariant the claim states. -/
theorem c2_mismatch_after_free_double_release :
    Trunk.mkNew { file := "f", line := 1 } 1 true = some (c2o0, c2c0) ∧
    Trunk.free c2o0 c2c0 { file := "f", line := 2 } true = Res.ok () c2o1 c2c1 [] ∧
    c2c1.releases = 1 ∧
    Trunk.free c2o1 c2c1 { file := "f", line := 3 } false =
      Res.exited 21 c2o1 { c2c1 with deleted := true, releases := 2 }
        [msgMismatchSA c2o1.allocated { file := "f", line := 3 }] ∧
    ({ c2c1 with deleted := true, releases := 2 } : Cells).releases = 2 := by
  refine ⟨rfl, rfl, rfl, rfl, rfl⟩

/-- C3 counterexample: the claim says any two handles aliased to the same
logical allocation always see the same cursor.  Build two allocations, free
the first, assign the second to the first: objects 0 and 1 now share cell
group 1 (its refcount counts both), yet advancing through the handle of
object 0 leaves the cursor seen through the handle of object 1 unchanged,
because the source keeps _iter in each Trunk object. -/
theorem c3_alias_cursor_counterexample :
    Allocator.alloc { cellsArr := [], objs := [] } "f" 1 1 true = some aliasM1 ∧
    Allocator.alloc aliasM1 "f" 2 4 false = some aliasM2 ∧
    freeVia aliasM2 aliasHA { file := "f", line := 3 } true = some (SRes.ok aliasM3 []) ∧
    assignVia aliasM3 aliasHA aliasHB = some (SRes.ok aliasM4 []) ∧
    (aliasM4.objs.get? aliasHA.obj).map TrunkObj.cells = some 1 ∧
    (aliasM4.objs.get? aliasHB.obj).map TrunkObj.cells = some 1 ∧
    (aliasM4.cellsArr.get? 1).map Cells.refcount = some 2 ∧
    advanceVia aliasM4 aliasHA = aliasM5 ∧
    cursorVia aliasM5 aliasHA = some 1 ∧
    cursorVia aliasM5 aliasHB = some 0 ∧
    cursorVia aliasM5 aliasHA ≠ cursorVia aliasM5 aliasHB := by
  refine ⟨rfl, rfl, rfl, rfl, rfl, rfl, rfl, rfl, rfl, rfl, by decide⟩

/-- C3 (amended): the cursor lives in the Trunk object, and user handles are
references to Trunk objects, so advancing or retreating the cursor through
one handle changes the cursor observed through every handle that references
the same Trunk object; distinct Trunk objects made to alias one logical
allocation by assignment each keep an independent cursor, so such aliases
need not agree. -/
theorem c3_cursor_shared_through_references (m : Mem) (h1 h2 : Handle)
    (o : TrunkObj) (hsame : h1.obj = h2.obj) (ho : m.objs.get? h1.obj = some o) :
    cursorVia (advanceVia m h1) h1 = some (incWrap o.iterIdx) ∧
    cursorVia (advanceVia m h1) h2 = cursorVia (advanceVia m h1) h1 ∧
    cursorVia (retreatVia m h1) h1 = some (decWrap o.iterIdx) ∧
    cursorVia (retreatVia m h1) h2 = cursorVia (retreatVia m h1) h1 := by
  have heq : h1 = h2 := by cases h1; cases h2; simpa using hsame
  subst heq
  have hadv : advanceVia m h1 = { m with objs := m.objs.set h1.obj (TrunkObj.preInc o).2 } := by
    unfold advanceVia; rw [ho]
  have hret : retreatVia m h1 = { m with objs := m.objs.set h1.obj (TrunkObj.preDec o).2 } := by
    unfold retreatVia; rw [ho]
  have hgetA : (m.objs.set h1.obj (TrunkObj.preInc o).2).get? h1.obj =
      some (TrunkObj.preInc o).2 := list_get?_set_self _ m.objs h1.obj o ho
  have hgetR : (m.objs.set h1.obj (TrunkObj.preDec o).2).get? h1.obj =
      some (TrunkObj.preDec o).2 := list_get?_set_self _ m.objs h1.obj o ho
  refine ⟨?_, rfl, ?_, rfl⟩
  · rw [hadv]; unfold cursorVia; rw [hgetA]; rfl
  · rw [hret]; unfold cursorVia; rw [hgetR]; rfl

/-- C3 witness: in a one-object store with cursor 0, advancing through the
handle makes every reference to that object read cursor 1, and retreating
makes every reference read the wrapped value of minus one. -/
theorem c3_cursor_shared_through_references_witness :
    cursorVia (advanceVia c3wm { obj := 0 }) { obj := 0 } = some (incWrap 0) ∧
    cursorVia (advanceVia c3wm { obj := 0 }) { obj := 0 } =
      cursorVia (advanceVia c3wm { obj := 0 }) { obj := 0 } ∧
    cursorVia (retreatVia c3wm { obj := 0 }) { obj := 0 } = some (decWrap 0) ∧
    cursorVia (retreatVia c3wm { obj := 0 }) { obj := 0 } =
      cursorVia (retreatVia c3wm { obj := 0 }) { obj := 0 } :=
  c3_cursor_shared_through_references c3wm { obj := 0 } { obj := 0 }
    { allocated := { file := "w", line := 1 }, freed := { file := "", line := 0 },
      single := false, size := 3, iterTrunk := 0, iterIdx := 0, cells := 0 } rfl rfl

/-- C4 counterexample: the claim says assignment between any two handles of
the same logical allocation is a no-op even when they are distinct handle
objects.  In the alias scenario both objects point at cell group 1 and the
lhs cursor is 1; the assignment runs give_up_ref plus adoption and resets the
lhs cursor to the rhs value 0, so the store changes: not a no-op. -/
theorem c4_assignment_not_noop_counterexample :
    (aliasM5.objs.get? aliasHA.obj).map TrunkObj.cells =
      (aliasM5.objs.get? aliasHB.obj).map TrunkObj.cells ∧
    aliasHA ≠ aliasHB ∧
    assignVia aliasM5 aliasHA aliasHB = some (SRes.ok aliasM4 []) ∧
    aliasM4 ≠ aliasM5 ∧
    cursorVia aliasM5 aliasHA = some 1 ∧
    cursorVia aliasM4 aliasHA = some 0 := by
  refine ⟨rfl, by decide, rfl, by decide, rfl, rfl⟩

/-- C4 (amended): the assignment h1 = h2 is a no-op (store unchanged, no
output, no leak check, no diagnostic, no termination) exactly when h1 and h2
reference the same Trunk object, which is the identity test this == &that the
source performs; for distinct Trunk objects aliasing one logical allocation
the source does not short-circuit. -/
theorem c4_self_assignment_noop (m : Mem) (h1 h2 : Handle)
    (hsame : h1.obj = h2.obj) :
    assignVia m h1 h2 = some (SRes.ok m []) := by
  cases h1 with
  | mk i =>
    cases h2 with
    | mk i2 =>
      simp only [] at hsame
      subst hsame
      simp [assignVia, assignObjs]

/-- C4 witness: self-assignment through the handle of object 0 in the alias
store is a no-op. -/
theorem c4_self_assignment_noop_witness :
    assignVia aliasM5 aliasHA aliasHA = some (SRes.ok aliasM5 []) :=
  c4_self_assignment_noop aliasM5 aliasHA aliasHA rfl

/-- C5 counterexample: the claim says copy-constructing a new handle
increments the shared refcount so that it equals the number of live handles.
Copy-constructing from the sole handle of a fresh allocation (refcount 1)
yields two handle objects sharing cell group 0, yet the refcount is still 1,
not 2, because the source declares no copy constructor and the generated
memberwise copy never touches *_refcount. -/
theorem c5_copy_refcount_counterexample :
    Allocator.alloc { cellsArr := [], objs := [] } "f" 1 1 true = some c5m1 ∧
    copyCtor c5m1 0 = { c5m1 with objs := c5m1.objs ++ [c5obj] } ∧
    (copyCtor c5m1 0).objs.length = 2 ∧
    ((copyCtor c5m1 0).objs.get? 1).map TrunkObj.cells = some 0 ∧
    ((copyCtor c5m1 0).cellsArr.get? 0).map Cells.refcount = some 1 ∧
    ((copyCtor c5m1 0).cellsArr.get? 0).map Cells.refcount ≠ some 2 := by
  refine ⟨rfl, rfl, rfl, rfl, rfl, by decide⟩

/-- C5 (amended): copy-constructing a new handle from object j performs the
compiler-generated memberwise copy (the source declares no copy constructor):
the copy is a new object equal to j field for field, so it shares the same
logical allocation's cell group, and the cell store — in particular every
refcount — is left unchanged, so the refcount afterwards undercounts the live
handles. -/
theorem c5_copy_shares_cells_leaves_refcount (m : Mem) (j : Nat) (oj : TrunkObj)
    (h : m.objs.get? j = some oj) :
    (copyCtor m j).objs.get? m.objs.length = some oj ∧
    (copyCtor m j).objs.length = m.objs.length + 1 ∧
    (copyCtor m j).cellsArr = m.cellsArr := by
  have hc : copyCtor m j = { m with objs := m.objs ++ [oj] } := by
    unfold copyCtor; rw [h]
  rw [hc]
  exact ⟨list_get?_concat m.objs oj, by simp, rfl⟩

/-- C5 witness: the amended theorem applied to the one-allocation store. -/
theorem c5_copy_shares_cells_leaves_refcount_witness :
    (copyCtor c5m1 0).objs.get? c5m1.objs.length = some c5obj ∧
    (copyCtor c5m1 0).objs.length = c5m1.objs.length + 1 ∧
    (copyCtor c5m1 0).cellsArr = c5m1.cellsArr :=
  c5_copy_shares_cells_leaves_refcount c5m1 0 c5obj rfl

/-- C6: freeing a live allocation with the matching kind releases the buffer,
sets deleted, records the free call's trace in freed_at, prints nothing, and
leaves refcount, kind, count, allocated_at (and the buffer contents and
cursor) unchanged. -/
theorem c6_matching_free_marks_deleted (o : TrunkObj) (c : Cells) (tr : Trace)
    (s : Bool) (hk : s = o.single) (hd : c.deleted = false) :
    Trunk.free o c tr s =
      Res.ok () { o with freed := tr }
        { c with deleted := true, releases := c.releases + 1 } [] := by
  subst hk
  simp [Trunk.free, Bool.and_not_self, Bool.not_and_self, hd]

/-- C6 witness: the matching free of a fresh single allocation at f:2. -/
theorem c6_matching_free_marks_deleted_witness :
    Trunk.free c2o0 c2c0 { file := "f", line := 2 } true =
      Res.ok () { c2o0 with freed := { file := "f", line := 2 } }
        { c2c0 with deleted := true, releases := c2c0.releases + 1 } [] :=
  c6_matching_free_marks_deleted c2o0 c2c0 { file := "f", line := 2 } true rfl rfl

/-- C7: handle destruction (Trunk::give_up_ref) emits the leak diagnostic
citing the allocation site and terminates with exit code 11 — releasing the
buffer and marking the allocation deleted — exactly when the decremented
refcount reaches zero while deleted is still false; and whenever deleted is
already true (for example after a matching free), destruction returns
without printing anything, whatever the refcount. -/
theorem c7_leak_iff_last_ref_while_live (o : TrunkObj) (c : Cells) :
    (Trunk.give_up_ref o c =
       Res.exited 11 o
         { c with refcount := decWrap c.refcount, deleted := true,
                  releases := c.releases + 1 } [msgLeak o.allocated]
     ↔ decWrap c.refcount = 0 ∧ c.deleted = false) ∧
    (c.deleted = true →
      Trunk.give_up_ref o c = Res.ok () o { c with refcount := decWrap c.refcount } []) := by
  constructor
  · constructor
    · intro h
      by_cases hc : decWrap c.refcount = 0 ∧ c.deleted = false
      · exact hc
      · rw [Trunk.give_up_ref, if_neg hc] at h
        exact absurd h (by simp)
    · intro hc
      rw [Trunk.give_up_ref, if_pos hc]
      rfl
  · intro hd
    rw [Trunk.give_up_ref, if_neg (by simp [hd])]

/-- C7 witness: dropping the last handle of a live allocation leaks with exit
code 11, and dropping a handle of an already-freed allocation with three
handles left is silent. -/
theorem c7_leak_iff_last_ref_while_live_witness :
    Trunk.give_up_ref c7oLive c7cLive =
      Res.exited 11 c7oLive
        { c7cLive with refcount := decWrap c7cLive.refcount, deleted := true,
                       releases := c7cLive.releases + 1 } [msgLeak c7oLive.allocated] ∧
    Trunk.give_up_ref c7oFreed c7cFreed =
      Res.ok () c7oFreed { c7cFreed with refcount := decWrap c7cFreed.refcount } [] :=
  ⟨(c7_leak_iff_last_ref_while_live c7oLive c7cLive).1.mpr ⟨by decide, rfl⟩,
   (c7_leak_iff_last_ref_while_live c7oFreed c7cFreed).2 rfl⟩

/-- C8: freeing an already-freed allocation again with the matching kind
prints the double-free diagnostic citing the stored freed_at as first free
and the current trace as second free, exits with code 12, and changes
nothing: the object and cells at exit are the inputs, so the buffer is not
released again on this path. -/
theorem c8_double_free_exits_12 (o : TrunkObj) (c : Cells) (tr : Trace)
    (s : Bool) (hk : s = o.single) (hd : c.deleted = true) :
    Trunk.free o c tr s = Res.exited 12 o c [msgDouble o.freed tr] := by
  subst hk
  simp [Trunk.free, Bool.and_not_self, Bool.not_and_self, hd]

/-- C8 witness: a second matching free at f:4 of the single allocation freed
at f:2 exits 12 citing both traces, touching nothing. -/
theorem c8_double_free_exits_12_witness :
    Trunk.free c2o1 c2c1 { file := "f", line := 4 } true =
      Res.exited 12 c2o1 c2c1 [msgDouble c2o1.freed { file := "f", line := 4 }] :=
  c8_double_free_exits_12 c2o1 c2c1 { file := "f", line := 4 } true rfl rfl

/-- C9 counterexample: the claim says that for every handle the operator
named as pre-increment returns the cursor value before the mutation.  On a
handle object with cursor 0, Trunk::operator++() — the prefix form — forwards
to the Iter postfix form and returns the iterator already advanced to 1, the
value after the mutation, while the form named for post-increment returns 0. -/
theorem c9_handle_preinc_counterexample :
    c9o.iterIdx = 0 ∧
    (TrunkObj.preInc c9o).1.idx = 1 ∧
    (TrunkObj.preInc c9o).1.idx ≠ c9o.iterIdx ∧
    (TrunkObj.postInc c9o).1.idx = 0 ∧
    (TrunkObj.postInc c9o).2.iterIdx = 1 := by
  refine ⟨rfl, by decide, by decide, by decide, by decide⟩

/-- C9 (amended): at the Iter level the names are swapped — the operator
named for pre-increment (pre-decrement) returns the value before the
mutation and the one named for post-increment (post-decrement) the value
after — but Trunk's handle-level operators forward the prefix name to Iter's
postfix form and vice versa, so at the handle level the form named for
pre-increment returns the post-mutation cursor and the form named for
post-increment the pre-mutation cursor (the standard contract); in every
case the two forms mutate identically and return observably distinct values,
one before and one after the mutation. -/
theorem c9_inc_dec_semantics (it : Iter) (o : TrunkObj) :
    (Iter.preInc it).1 = it ∧ (Iter.preInc it).2.idx = incWrap it.idx ∧
    (Iter.postInc it).1.idx = incWrap it.idx ∧ (Iter.postInc it).2.idx = incWrap it.idx ∧
    (Iter.preDec it).1 = it ∧ (Iter.preDec it).2.idx = decWrap it.idx ∧
    (Iter.postDec it).1.idx = decWrap it.idx ∧
    (TrunkObj.preInc o).1.idx = incWrap o.iterIdx ∧
    (TrunkObj.preInc o).2.iterIdx = incWrap o.iterIdx ∧
    (TrunkObj.postInc o).1.idx = o.iterIdx ∧
    (TrunkObj.postInc o).2.iterIdx = incWrap o.iterIdx ∧
    (TrunkObj.preDec o).1.idx = decWrap o.iterIdx ∧
    (TrunkObj.preDec o).2.iterIdx = decWrap o.iterIdx ∧
    (TrunkObj.postDec o).1.idx = o.iterIdx ∧
    (TrunkObj.postDec o).2.iterIdx = decWrap o.iterIdx ∧
    incWrap it.idx ≠ it.idx ∧ decWrap it.idx ≠ it.idx :=
  ⟨rfl, rfl, rfl, rfl, rfl, rfl, rfl, rfl, rfl, rfl, rfl, rfl, rfl, rfl, rfl,
   incWrap_ne it.idx, decWrap_ne it.idx⟩

/-- C10: of the claimed behavior, only the offset operator exists in the
source.  offset(n) — Trunk::operator+, forwarding to Iter::operator+ — does
nothing but build the (logical-allocation, cursor + n) cursor pair: it
performs no bound check, prints nothing, cannot terminate, and leaves the
stored cursor unchanged; when the signed sum of cursor and n is negative, the
conversion to size_t wraps it to an index of at least 2 to the 63.  The
dereference the claim then describes has no counterpart in the source:
Iter::operator* returns _trunk[_idx], a built-in pointer subscript on the
Trunk* member yielding a Trunk lvalue, which is ill-formed to return as T&,
so cursor handles cannot be dereferenced at all, even though the header's own
usage comment advertises *(ary + 3). -/
theorem c10_offset_builds_unchecked_cursor (o : TrunkObj) (n : Int)
    (hneg : (o.iterIdx : Int) + n < 0)
    (hlow : -(9223372036854775808 : Int) ≤ (o.iterIdx : Int) + n) :
    TrunkObj.add o n = { trunk := o.iterTrunk, idx := wrapI ((o.iterIdx : Int) + n) } ∧
    9223372036854775808 ≤ (TrunkObj.add o n).idx := by
  refine ⟨rfl, ?_⟩
  show 9223372036854775808 ≤ wrapI ((o.iterIdx : Int) + n)
  unfold wrapI W64
  simp only [Nat.cast_ofNat]
  have hb := @Int.add_mul_emod_self_left ((o.iterIdx : Int) + n) 18446744073709551616 1
  simp only [mul_one] at hb
  have hd : ((o.iterIdx : Int) + n) % 18446744073709551616 =
      (o.iterIdx : Int) + n + 18446744073709551616 := by
    rw [← hb]
    exact Int.emod_eq_of_lt (by omega) (by omega)
  show (9223372036854775808 : Nat) ≤ (((o.iterIdx : Int) + n) % 18446744073709551616).toNat
  rw [hd]
  omega

/-- C10 witness: offsetting the fresh array allocation's cursor 0 by minus
one yields the cursor pair with the wrapped index 2 to the 64 minus one,
touching nothing. -/
theorem c10_offset_builds_unchecked_cursor_witness :
    TrunkObj.add c10h (-1) =
      { trunk := c10h.iterTrunk, idx := wrapI ((c10h.iterIdx : Int) + (-1)) } ∧
    9223372036854775808 ≤ (TrunkObj.add c10h (-1)).idx :=
  c10_offset_builds_unchecked_cursor c10h (-1) (by decide) (by decide)
